import Mathlib

/-!
Verification development for the Meteor Mission game core.

The JavaScript sources are shallowly embedded in Lean: JS numbers are
modelled as exact rationals (`ℚ`), entity objects become structures, and
each method becomes a pure function from the old state (plus its
arguments) to the new state and its return value.  Purely cosmetic
effects that touch no game-relevant field (mesh construction, emissive
flicker, audio cues, the `Date.now()`-driven sway of the astronaut) are
omitted; every field read by game logic is modelled.
-/

namespace MeteorMission

/- Game configuration constants from `src/core/Config.js`.  Decimal
constants are written as exact fractions (`0.015 = 3/200`, etc.). -/
namespace Config

def GAME_WIDTH : ℚ := 40
def GAME_HEIGHT : ℚ := 60
def METEOR_COUNT : ℕ := 25
def INITIAL_LIVES : ℤ := 3
def MAX_BULLETS : ℕ := 3
def FUEL_MAX : ℚ := 100
def FUEL_CONSUMPTION_RATE : ℚ := 15
def FUEL_REFILL_ON_LAND : ℚ := 50
def GRAVITY : ℚ := -3/200
def THRUST : ℚ := 1/25
def HORIZONTAL_SPEED : ℚ := 3/10
def DESCENT_SPEED : ℚ := -2/25
def ASCENT_SPEED : ℚ := 1/10
def BULLET_SPEED : ℚ := 4/5
def MAX_DESCENT_SPEED : ℚ := -3/10
def SCORE_LANDING : ℕ := 100
def SCORE_RESCUE : ℕ := 200
def SCORE_METEOR : ℕ := 50
def SCORE_FLAGSHIP : ℕ := 500
def ASTRONAUTS_PER_LEVEL : ℕ := 5
def METEORS_PER_LEVEL : ℕ := 3
def FLAGSHIP_FLASH_DURATION : ℚ := 3

end Config

/-- Game phases (`Config.PHASE`). -/
inductive Phase where
  | title
  | descent
  | landed
  | ascent
  | gameOver
deriving DecidableEq, Repr

/-- A 3D vector (`THREE.Vector3` as used by the core logic). -/
structure Vec3 where
  x : ℚ
  y : ℚ
  z : ℚ
deriving DecidableEq, Repr

/-- Base entity state from `src/entities/Entity.js`: position, velocity,
active flag and collision radius.  The mesh handle is opaque to the core
and is represented only through the position it stores. -/
structure Entity where
  pos : Vec3
  vel : Vec3
  active : Bool
  radius : ℚ
deriving DecidableEq, Repr

/-- Squared euclidean distance between two positions. -/
def sqDist (p q : Vec3) : ℚ :=
  (p.x - q.x) ^ 2 + (p.y - q.y) ^ 2 + (p.z - q.z) ^ 2

/-- The sphere test of `Entity.collidesWith`: the JS code compares
`distanceTo(other) < radius + other.radius`; over the reals
`Real.sqrt d2 < r` is equivalent to `0 < r ∧ d2 < r ^ 2`, which is the
exact form used here so the definition stays rational-valued. -/
def Entity.collidesWith (a b : Entity) : Bool :=
  a.active && b.active &&
    decide (0 < a.radius + b.radius) &&
    decide (sqDist a.pos b.pos < (a.radius + b.radius) ^ 2)

/-- Player craft state from `src/entities/Lander.js`.  `rotZ` is the
cosmetic banking tilt (`mesh.rotation.z`). -/
structure Lander where
  pos : Vec3
  vel : Vec3
  rotZ : ℚ
  active : Bool
  radius : ℚ
  thrusterVisible : Bool
deriving DecidableEq, Repr

/-- View of the craft as a bare entity (for the shared sphere test). -/
def Lander.toEntity (l : Lander) : Entity :=
  { pos := l.pos, vel := l.vel, active := l.active, radius := l.radius }

/-- Lander.reset: start position and velocity. -/
def Lander.reset (l : Lander) : Lander :=
  { l with
    pos := { x := 0, y := Config.GAME_HEIGHT / 2 - 6, z := 0 }
    vel := { x := 0, y := Config.DESCENT_SPEED, z := 0 }
    rotZ := 0
    thrusterVisible := false }

/-- Lander.applyThrust: `velocity.y += THRUST` and show the thruster. -/
def Lander.applyThrust (l : Lander) : Lander :=
  { l with
    vel := { l.vel with y := l.vel.y + Config.THRUST }
    thrusterVisible := true }

/-- Lander.moveHorizontal: horizontal step plus cosmetic bank. -/
def Lander.moveHorizontal (l : Lander) (direction speedMultiplier : ℚ) : Lander :=
  { l with
    pos := { l.pos with x := l.pos.x + direction * Config.HORIZONTAL_SPEED * speedMultiplier }
    rotZ := -direction * (1/5) }

/-- Lander.applyGravity: `velocity.y += GRAVITY` then floor the result at
`MAX_DESCENT_SPEED` (`Math.max`). -/
def Lander.applyGravity (l : Lander) : Lander :=
  { l with
    vel := { l.vel with y := max (l.vel.y + Config.GRAVITY) Config.MAX_DESCENT_SPEED } }

/-- Lander.setThrusterVisible (the opacity write is cosmetic). -/
def Lander.setThrusterVisible (l : Lander) (visible : Bool) : Lander :=
  { l with thrusterVisible := visible }

/-- Lander.easeRotation: geometric decay of the cosmetic tilt. -/
def Lander.easeRotation (l : Lander) : Lander :=
  { l with rotZ := l.rotZ * (9/10) }

/-- Lander.clampPosition: clamp x into `[-(W/2-1), W/2-1]`
(`Math.max(-h, Math.min(h, x))`). -/
def Lander.clampPosition (l : Lander) : Lander :=
  { l with
    pos := { l.pos with
      x := max (-(Config.GAME_WIDTH / 2 - 1)) (min (Config.GAME_WIDTH / 2 - 1) l.pos.x) } }

/-- Lander.update: when active, apply the velocity to the position and
then clamp the position; the velocity itself is unchanged. -/
def Lander.update (l : Lander) : Lander :=
  if l.active = false then l
  else
    Lander.clampPosition
      { l with pos := { l.pos with x := l.pos.x + l.vel.x, y := l.pos.y + l.vel.y } }

/-- Lander.isAtGroundLevel: `y < -H/2 + 3`. -/
def Lander.isAtGroundLevel (l : Lander) : Bool :=
  decide (l.pos.y < -(Config.GAME_HEIGHT / 2) + 3)

/-- Lander.reachedMothership: `y > H/2 - 6`. -/
def Lander.reachedMothership (l : Lander) : Bool :=
  decide (l.pos.y > Config.GAME_HEIGHT / 2 - 6)

/-- Lander.isInDockingRange: `|x| < 2`. -/
def Lander.isInDockingRange (l : Lander) : Bool :=
  decide (|l.pos.x| < 2)

/-- Lander.isOutOfBounds: strict comparison against the same half-width
used by `clampPosition`. -/
def Lander.isOutOfBounds (l : Lander) : Bool :=
  decide (l.pos.x < -(Config.GAME_WIDTH / 2 - 1)) ||
    decide (l.pos.x > Config.GAME_WIDTH / 2 - 1)

/-- Mission state record held by `GameStateManager` (`src/core/GameState.js`). -/
structure GState where
  phase : Phase
  score : ℕ
  lives : ℤ
  astronautsRescued : ℕ
  fuel : ℚ
  hasAstronaut : Bool
  level : ℕ
deriving DecidableEq, Repr

/-- GameStateManager.set for the `fuel` key: writes the value and reports
whether a change notification was emitted (`oldValue !== value`). -/
def GState.setFuel (s : GState) (v : ℚ) : GState × Bool :=
  if s.fuel = v then (s, false) else ({ s with fuel := v }, true)

/-- GameStateManager.consumeFuel: early-out `false` when `fuel <= 0`,
otherwise write `max 0 (fuel - amount)` and return `true`.  The result is
`(new state, returned boolean, change notification emitted)`. -/
def GState.consumeFuel (s : GState) (amount : ℚ) : GState × Bool × Bool :=
  if s.fuel ≤ 0 then (s, false, false)
  else
    let r := s.setFuel (max 0 (s.fuel - amount))
    (r.1, true, r.2)

/-- GameStateManager.refillFuel: write `min FUEL_MAX (fuel + amount)`. -/
def GState.refillFuel (s : GState) (amount : ℚ) : GState :=
  (s.setFuel (min Config.FUEL_MAX (s.fuel + amount))).1

/-- GameStateManager.loseLife: decrement lives, return whether the game
continues (`newLives > 0`). -/
def GState.loseLife (s : GState) : GState × Bool :=
  let newLives := s.lives - 1
  ({ s with lives := newLives }, decide (newLives > 0))

/-- GameStateManager.rescueAstronaut: increment the rescue count, add the
rescue score, and on a level-up threshold increment the level and emit one
`levelUp` notification (the returned boolean; the game registers exactly
one `levelUp` listener, which runs `createMeteors` once). -/
def GState.rescueAstronaut (s : GState) : GState × Bool :=
  let rescued := s.astronautsRescued + 1
  let s1 := { s with astronautsRescued := rescued }
  let s2 := { s1 with score := s1.score + Config.SCORE_RESCUE }
  if rescued % Config.ASTRONAUTS_PER_LEVEL = 0 then
    ({ s2 with level := s2.level + 1 }, true)
  else (s2, false)

/-- Size of the obstacle batch created by `Game.createMeteors`:
`METEOR_COUNT + level * METEORS_PER_LEVEL`. -/
def meteorBatchSize (level : ℕ) : ℕ :=
  Config.METEOR_COUNT + level * Config.METEORS_PER_LEVEL

/-- Game.loseLife (`src/core/Game.js`): decrement lives; when none remain
enter GameOver in the same frame, otherwise schedule the deferred (~1 s)
reset.  The boolean records whether that `setTimeout` reset was
scheduled; the fields it would touch change only when the timer fires,
not in this frame. -/
def gameLoseLife (s : GState) : GState × Bool :=
  let r := s.loseLife
  if r.2 then (r.1, true)
  else ({ r.1 with phase := Phase.gameOver }, false)

/-- Landing pad state from `src/entities/LandingPad.js`. -/
structure LandingPad where
  padX : ℚ
  padIndex : ℕ
  width : ℚ
  pos : Vec3
  active : Bool
deriving DecidableEq, Repr

/-- LandingPad.isPositionOverPad: `|x - padX| < width/2 - 0.5`. -/
def LandingPad.isPositionOverPad (pad : LandingPad) (x : ℚ) : Bool :=
  decide (|x - pad.padX| < pad.width / 2 - 1/2)

/-- CollisionSystem.checkLanderMeteorCollision: `null` for an inactive
lander, otherwise the first meteor that is active and passes the sphere
test (inactive meteors are skipped by `continue`). -/
def checkLanderMeteorCollision (lander : Lander) (meteors : List Entity) : Option Entity :=
  if lander.active = false then none
  else meteors.find? fun m => m.active && lander.toEntity.collidesWith m

/-- CollisionSystem.checkBulletMeteorCollisions: all pairwise hits, outer
loop over bullets, inner loop over meteors, both skipping inactive
entities. -/
def checkBulletMeteorCollisions (bullets meteors : List Entity) :
    List (Entity × Entity) :=
  bullets.flatMap fun bullet =>
    if bullet.active = false then []
    else meteors.filterMap fun meteor =>
      if meteor.active = false then none
      else if bullet.collidesWith meteor then some (bullet, meteor) else none

/-- CollisionSystem.checkLandingPadCollision: `null` unless the lander is
at ground level, otherwise the first pad whose window contains the
lander's x (the pad's active flag is never consulted). -/
def checkLandingPadCollision (lander : Lander) (pads : List LandingPad) :
    Option LandingPad :=
  if lander.isAtGroundLevel = false then none
  else pads.find? fun pad => pad.isPositionOverPad lander.pos.x

/-- CollisionSystem.checkGroundCollision: at ground level and over no pad. -/
def checkGroundCollision (lander : Lander) (pads : List LandingPad) : Bool :=
  lander.isAtGroundLevel && pads.all fun pad => !(pad.isPositionOverPad lander.pos.x)

/-- CollisionSystem.checkDockingCollision: altitude plus docking range
(the mothership argument is used only for the event payload). -/
def checkDockingCollision (lander : Lander) : Bool :=
  lander.reachedMothership && lander.isInDockingRange

/-- CollisionSystem.checkBoundaryCollision: exactly `Lander.isOutOfBounds`
(the lander's active flag is never consulted). -/
def checkBoundaryCollision (lander : Lander) : Bool :=
  lander.isOutOfBounds

/-- Held-key snapshot consumed by the descent-phase controller. -/
structure DescentInput where
  left : Bool
  right : Bool
  up : Bool
deriving DecidableEq, Repr

/-- Game.updateDescentPhase: gravity, then horizontal control (or tilt
ease), then — when thrust is held and fuel is positive — thrust plus fuel
consumption at `FUEL_CONSUMPTION_RATE * deltaTime`.  Audio is
fire-and-forget and omitted. -/
def updateDescentPhase (i : DescentInput) (dt : ℚ) (l : Lander) (s : GState) :
    Lander × GState :=
  let l1 := l.applyGravity
  let l2 :=
    if i.left then l1.moveHorizontal (-1) 1
    else if i.right then l1.moveHorizontal 1 1
    else l1.easeRotation
  if i.up && decide (s.fuel > 0) then
    let l3 := l2.applyThrust
    let s1 := (s.consumeFuel (Config.FUEL_CONSUMPTION_RATE * dt)).1
    (l3.setThrusterVisible true, s1)
  else (l2.setThrusterVisible false, s)

/-- One Descent-phase frame for the craft, as sequenced by
`Game.updateLander`: `updateDescentPhase` followed by `Lander.update`. -/
def descentFrame (i : DescentInput) (dt : ℚ) (l : Lander) (s : GState) :
    Lander × GState :=
  let r := updateDescentPhase i dt l s
  (r.1.update, r.2)

/-- Obstacle state from `src/entities/Meteor.js`.  `rot` is the mesh
rotation and `rotVel` the per-tick spin rates (`this.rotation`); at
creation `radius` equals the random mesh scale drawn from `[0.5, 1.5)`. -/
structure Meteor where
  pos : Vec3
  vel : Vec3
  rot : Vec3
  rotVel : Vec3
  active : Bool
  radius : ℚ
  level : ℕ
  isFlagship : Bool
  flashTimer : ℚ
  willBecomeFlagship : Bool
  points : ℕ
deriving DecidableEq, Repr

/-- Scales produced by `Meteor.createMesh`: `0.5 + Math.random() * 1`
with `Math.random() ∈ [0, 1)`. -/
def meteorScaleValid (s : ℚ) : Prop :=
  1/2 ≤ s ∧ s < 3/2

/-- Meteor.transformToFlagship: set the elite flag, double the horizontal
velocity, fix the radius at `1.2`, elevate the point value.  The mesh
swap and position copy are cosmetic. -/
def Meteor.transformToFlagship (m : Meteor) : Meteor :=
  { m with
    isFlagship := true
    vel := { m.vel with x := m.vel.x * 2 }
    radius := 6/5
    points := Config.SCORE_FLAGSHIP }

/-- Movement and spin block of `Meteor.update`: position advances by the
velocity, the rotation by the spin rates. -/
def Meteor.moveStep (m : Meteor) : Meteor :=
  { m with
    pos := { m.pos with x := m.pos.x + m.vel.x, y := m.pos.y + m.vel.y }
    rot := { x := m.rot.x + m.rotVel.x, y := m.rot.y + m.rotVel.y,
             z := m.rot.z + m.rotVel.z } }

/-- Edge-bounce block of `Meteor.update`: past either horizontal edge the
horizontal velocity is inverted. -/
def Meteor.bounceStep (m : Meteor) : Meteor :=
  if m.pos.x < -(Config.GAME_WIDTH / 2 - 2) ∨ m.pos.x > Config.GAME_WIDTH / 2 - 2 then
    { m with vel := { m.vel with x := m.vel.x * (-1) } }
  else m

/-- Vertical-wrap block of `Meteor.update`: below the bottom bound the
meteor reappears just under the top bound and conversely. -/
def Meteor.wrapStep (m : Meteor) : Meteor :=
  if m.pos.y < -(Config.GAME_HEIGHT / 2) + 5 then
    { m with pos := { m.pos with y := Config.GAME_HEIGHT / 2 - 15 - 3 } }
  else if m.pos.y > Config.GAME_HEIGHT / 2 - 15 then
    { m with pos := { m.pos with y := -(Config.GAME_HEIGHT / 2) + 5 + 3 } }
  else m

/-- Flagship flash/transform block of `Meteor.update`: when eligible,
untransformed and given a scene, advance the flash timer by `0.05` and
transform once it exceeds `FLAGSHIP_FLASH_DURATION`.  The sine-based
emissive flicker of the else branch changes no modelled field and is
omitted. -/
def Meteor.flagshipStep (hasScene : Bool) (m : Meteor) : Meteor :=
  if m.willBecomeFlagship && !m.isFlagship && hasScene then
    let t := m.flashTimer + 1/20
    if t > Config.FLAGSHIP_FLASH_DURATION then
      Meteor.transformToFlagship { m with flashTimer := t }
    else { m with flashTimer := t }
  else m

/-- Elite cosmetic spin block of `Meteor.update`. -/
def Meteor.spinStep (m : Meteor) : Meteor :=
  if m.isFlagship then { m with rot := { m.rot with z := m.rot.z + 1/20 } }
  else m

/-- Meteor.update: no-op when inactive; otherwise move and spin, bounce
off the horizontal edges, wrap vertically, run the flagship
flash/transform logic (only when a scene was passed), and finally apply
the elite cosmetic spin — in exactly the source's order. -/
def Meteor.update (hasScene : Bool) (m : Meteor) : Meteor :=
  if m.active = false then m
  else Meteor.spinStep (Meteor.flagshipStep hasScene (Meteor.wrapStep (Meteor.bounceStep (Meteor.moveStep m))))

/-- Repeated `Meteor.update` ticks, one scene flag per tick. -/
def runMeteor (m : Meteor) (scenes : List Bool) : Meteor :=
  scenes.foldl (fun acc hs => Meteor.update hs acc) m

/-- Rescue-target states (`AstronautState` in `src/entities/Astronaut.js`). -/
inductive AState where
  | running
  | boarding
  | aboard
deriving DecidableEq, Repr

/-- Position of a state along the Approaching → Boarding → Aboard chain. -/
def AState.rank : AState → ℕ
  | .running => 0
  | .boarding => 1
  | .aboard => 2

/-- Rescue-target state from `src/entities/Astronaut.js`.  `scale` is the
uniform mesh scale (`mesh.scale.x`); the `Date.now()`-driven walking sway
touches only the cosmetic rotation and is omitted. -/
structure Astronaut where
  pos : Vec3
  scale : ℚ
  state : AState
  active : Bool
  speed : ℚ
  radius : ℚ
deriving DecidableEq, Repr

/-- Math.sign on rationals. -/
def qsign (q : ℚ) : ℚ :=
  if 0 < q then 1 else if q < 0 then -1 else 0

/-- Astronaut.update: no-op returning `false` when inactive or already
aboard; while running, step toward the lander and switch to boarding
within the `0.5` window; while boarding, rise and shrink by `0.95` per
tick, and once the scale drops below `0.1` become aboard and inactive,
returning `true` exactly at that tick. -/
def Astronaut.update (landerX : ℚ) (a : Astronaut) : Astronaut × Bool :=
  if a.active = false ∨ a.state = AState.aboard then (a, false)
  else
    match a.state with
    | AState.running =>
        let dir := qsign (landerX - a.pos.x)
        let a1 := { a with pos := { a.pos with x := a.pos.x + dir * a.speed } }
        if |a1.pos.x - landerX| < 1/2 then ({ a1 with state := AState.boarding }, false)
        else (a1, false)
    | AState.boarding =>
        let a1 := { a with
          pos := { a.pos with y := a.pos.y + 1/20 }
          scale := a.scale * (19/20) }
        if a1.scale < 1/10 then
          ({ a1 with state := AState.aboard, active := false }, true)
        else (a1, false)
    | AState.aboard => (a, false)

/-- Number of `true` ("aboard") reports over a sequence of updates, one
lander x-position per tick. -/
def aboardCount (a : Astronaut) : List ℚ → ℕ
  | [] => 0
  | lx :: rest =>
      let r := a.update lx
      (if r.2 then 1 else 0) + aboardCount r.1 rest

/-- Repeated `Lander.applyGravity` applications (gravity without thrust). -/
def applyGravityIter : ℕ → Lander → Lander
  | 0, l => l
  | n + 1, l => applyGravityIter n l.applyGravity

/-- Repeated Descent-phase frames under a fixed input snapshot. -/
def descentIter (i : DescentInput) (dt : ℚ) : ℕ → Lander × GState → Lander × GState
  | 0, p => p
  | n + 1, p => descentIter i dt n (descentFrame i dt p.1 p.2)

/-- One call of the fuel interface of `GameStateManager`. -/
inductive FuelOp where
  | consume (amount : ℚ)
  | refill (amount : ℚ)
deriving DecidableEq, Repr

/-- Argument of a fuel operation. -/
def FuelOp.amount : FuelOp → ℚ
  | .consume a => a
  | .refill a => a

/-- Apply one fuel operation to the mission state. -/
def applyFuelOp (s : GState) : FuelOp → GState
  | .consume a => (s.consumeFuel a).1
  | .refill a => s.refillFuel a

/-- Run a call sequence against the fuel interface. -/
def runFuelOps (s : GState) (ops : List FuelOp) : GState :=
  ops.foldl applyFuelOp s

/- Concrete entities and states used by the witnesses and
counterexamples below. -/

/-- A craft hovering at the origin with zero velocity. -/
def landerHover : Lander :=
  { pos := ⟨0, 0, 0⟩, vel := ⟨0, 0, 0⟩, rotZ := 0, active := true, radius := 1,
    thrusterVisible := false }

/-- A craft just inside the right playfield edge (x = 18.9). -/
def landerEdge : Lander :=
  { landerHover with pos := ⟨189/10, 0, 0⟩ }

/-- A deactivated craft parked outside the playfield (x = 25). -/
def landerInactiveFar : Lander :=
  { landerHover with pos := ⟨25, 0, 0⟩, active := false }

/-- An active craft at ground level over x = 0. -/
def landerAtGround : Lander :=
  { landerHover with pos := ⟨0, -28, 0⟩ }

/-- A deactivated landing pad centred at x = 0. -/
def padInactive : LandingPad :=
  { padX := 0, padIndex := 0, width := 4, pos := ⟨0, -28, 0⟩, active := false }

/-- An active obstacle sitting on the origin (collides with
`landerHover`). -/
def entMeteorHit : Entity :=
  { pos := ⟨0, 0, 0⟩, vel := ⟨0, 0, 0⟩, active := true, radius := 1 }

/-- An active projectile sitting on the origin. -/
def entBulletHit : Entity :=
  { pos := ⟨0, 0, 0⟩, vel := ⟨0, 0, 0⟩, active := true, radius := 1/5 }

/-- Mission state at the start of a descent: full fuel, three lives. -/
def stateDescent : GState :=
  { phase := Phase.descent, score := 0, lives := 3, astronautsRescued := 0,
    fuel := 100, hasAstronaut := false, level := 1 }

/-- Mission state with the tank empty. -/
def stateEmptyFuel : GState :=
  { stateDescent with fuel := 0 }

/-- Mission state on the last life. -/
def stateLastLife : GState :=
  { stateDescent with lives := 1 }

/-- Mission state four rescues in, still on level 1. -/
def stateFourRescues : GState :=
  { stateDescent with astronautsRescued := 4 }

/-- Input snapshot: only thrust held. -/
def inputThrust : DescentInput := ⟨false, false, true⟩

/-- Input snapshot: only right held. -/
def inputRight : DescentInput := ⟨false, true, false⟩

/-- Input snapshot: nothing held. -/
def inputNone : DescentInput := ⟨false, false, false⟩

/-- An untransformed, eligible obstacle whose initial random scale was
1.4 (so `radius = 1.4`). -/
def meteorBig : Meteor :=
  { pos := ⟨0, 0, 0⟩, vel := ⟨1/20, 0, 0⟩, rot := ⟨0, 0, 0⟩, rotVel := ⟨0, 0, 0⟩,
    active := true, radius := 7/5, level := 1, isFlagship := false,
    flashTimer := 0, willBecomeFlagship := true, points := Config.SCORE_METEOR }

/-- An eligible obstacle one tick away from the transform threshold. -/
def meteorReady : Meteor :=
  { meteorBig with flashTimer := 3 }

/-- An already-transformed elite obstacle. -/
def meteorElite : Meteor :=
  { meteorBig with
    isFlagship := true
    radius := 6/5
    points := Config.SCORE_FLAGSHIP }

/-- A boarding rescue target one shrink step away from `Aboard`. -/
def astroBoarding : Astronaut :=
  { pos := ⟨0, -27, 0⟩, scale := 1/10, state := AState.boarding, active := true,
    speed := 1/20, radius := 3/10 }

/- Helper lemmas shared by the claim theorems. -/

lemma setFuel_fuel (s : GState) (v : ℚ) : ((s.setFuel v).1).fuel = v := by
  unfold GState.setFuel
  split_ifs with h
  · exact h
  · rfl

lemma consumeFuel_fuel_pos (s : GState) (a : ℚ) (h : ¬ s.fuel ≤ 0) :
    ((s.consumeFuel a).1).fuel = max 0 (s.fuel - a) := by
  unfold GState.consumeFuel
  rw [if_neg h]
  exact setFuel_fuel ..

lemma applyGravity_vel_y (l : Lander) :
    (l.applyGravity).vel.y = max (l.vel.y + Config.GRAVITY) Config.MAX_DESCENT_SPEED := rfl

lemma applyFuelOp_bounds (s : GState) (op : FuelOp) (h0 : 0 ≤ s.fuel)
    (h1 : s.fuel ≤ Config.FUEL_MAX) (ha : 0 ≤ op.amount) :
    0 ≤ (applyFuelOp s op).fuel ∧ (applyFuelOp s op).fuel ≤ Config.FUEL_MAX := by
  cases op with
  | consume a =>
      simp only [applyFuelOp]
      by_cases hf : s.fuel ≤ 0
      · unfold GState.consumeFuel
        rw [if_pos hf]
        exact ⟨h0, h1⟩
      · rw [consumeFuel_fuel_pos s a hf]
        refine ⟨le_max_left _ _, max_le (by norm_num [Config.FUEL_MAX]) ?_⟩
        have ha' : 0 ≤ a := ha
        calc s.fuel - a ≤ s.fuel := sub_le_self _ ha'
          _ ≤ Config.FUEL_MAX := h1
  | refill a =>
      simp only [applyFuelOp]
      unfold GState.refillFuel
      rw [setFuel_fuel]
      have ha' : 0 ≤ a := ha
      exact ⟨le_min (by norm_num [Config.FUEL_MAX]) (add_nonneg h0 ha'),
        min_le_left _ _⟩

/- Claim theorems. -/

/-- C9: during Descent the vertical velocity never goes below the
configured floor: after every `applyGravity` call
`velocity.y ≥ MAX_DESCENT_SPEED`, and this holds under arbitrarily many
repeated gravity applications without thrust starting from the reset
velocity. -/
theorem gravity_respects_descent_floor (l : Lander) (n : ℕ) (h : 1 ≤ n) :
    Config.MAX_DESCENT_SPEED ≤ (l.applyGravity).vel.y ∧
    Config.MAX_DESCENT_SPEED ≤ (applyGravityIter n l.reset).vel.y := by
  have step : ∀ l' : Lander, Config.MAX_DESCENT_SPEED ≤ (l'.applyGravity).vel.y := by
    intro l'
    rw [applyGravity_vel_y]
    exact le_max_right _ _
  refine ⟨step l, ?_⟩
  have iter : ∀ (k : ℕ) (l' : Lander),
      Config.MAX_DESCENT_SPEED ≤ (applyGravityIter k l'.applyGravity).vel.y := by
    intro k
    induction k with
    | zero => intro l'; exact step l'
    | succ k ih => intro l'; exact ih l'.applyGravity
  match n, h with
  | n + 1, _ => exact iter n l.reset

/-- Witness for C9 at a concrete lander and three gravity ticks. -/
theorem gravity_respects_descent_floor_witness :
    Config.MAX_DESCENT_SPEED ≤ (landerHover.applyGravity).vel.y ∧
    Config.MAX_DESCENT_SPEED ≤ (applyGravityIter 3 landerHover.reset).vel.y :=
  gravity_respects_descent_floor landerHover 3 (by decide)

/-- C5: starting from any fuel value in `[0, FUEL_MAX]`, every sequence
of `consumeFuel` / `refillFuel` calls with non-negative amounts keeps the
fuel in `[0, FUEL_MAX]`. -/
theorem fuel_interval_invariant (s : GState) (ops : List FuelOp)
    (h0 : 0 ≤ s.fuel) (h1 : s.fuel ≤ Config.FUEL_MAX)
    (hops : ∀ op ∈ ops, 0 ≤ op.amount) :
    0 ≤ (runFuelOps s ops).fuel ∧ (runFuelOps s ops).fuel ≤ Config.FUEL_MAX := by
  induction ops generalizing s with
  | nil => exact ⟨h0, h1⟩
  | cons op rest ih =>
      have hop : 0 ≤ op.amount := hops op (List.mem_cons_self op rest)
      have hrest : ∀ o ∈ rest, 0 ≤ o.amount := fun o ho => hops o (List.mem_cons_of_mem _ ho)
      have hb := applyFuelOp_bounds s op h0 h1 hop
      simp only [runFuelOps, List.foldl_cons]
      exact ih (applyFuelOp s op) hb.1 hb.2 hrest

/-- Witness for C5 on a concrete call sequence that hits both clamps. -/
theorem fuel_interval_invariant_witness :
    0 ≤ (runFuelOps stateDescent
      [FuelOp.consume 30, FuelOp.refill 200, FuelOp.consume 500]).fuel ∧
    (runFuelOps stateDescent
      [FuelOp.consume 30, FuelOp.refill 200, FuelOp.consume 500]).fuel ≤ Config.FUEL_MAX :=
  fuel_interval_invariant stateDescent _
    (by norm_num [stateDescent])
    (by norm_num [stateDescent, Config.FUEL_MAX])
    (by
      intro op hop
      simp only [List.mem_cons, List.not_mem_nil, or_false] at hop
      rcases hop with rfl | rfl | rfl <;> norm_num [FuelOp.amount])

/-- C10: with the tank already empty (`fuel ≤ 0`) `consumeFuel` returns
`false` and leaves the state untouched with no change notification;
with `fuel > 0` it returns `true` and sets fuel to
`max 0 (fuel - amount)`. -/
theorem consume_fuel_empty_noop (s t : GState) (amount : ℚ)
    (hs : s.fuel ≤ 0) (ht : 0 < t.fuel) :
    s.consumeFuel amount = (s, false, false) ∧
    (t.consumeFuel amount).2.1 = true ∧
    (t.consumeFuel amount).1 = { t with fuel := max 0 (t.fuel - amount) } := by
  refine ⟨?_, ?_, ?_⟩
  · unfold GState.consumeFuel
    rw [if_pos hs]
  · unfold GState.consumeFuel
    rw [if_neg (not_le.mpr ht)]
  · unfold GState.consumeFuel
    rw [if_neg (not_le.mpr ht)]
    show (t.setFuel (max 0 (t.fuel - amount))).1 = _
    unfold GState.setFuel
    split_ifs with h
    · rw [← h]
    · rfl

/-- Witness for C10 at an empty and a full tank. -/
theorem consume_fuel_empty_noop_witness :
    stateEmptyFuel.consumeFuel 3 = (stateEmptyFuel, false, false) ∧
    (stateDescent.consumeFuel 3).2.1 = true ∧
    (stateDescent.consumeFuel 3).1 =
      { stateDescent with fuel := max 0 (stateDescent.fuel - 3) } :=
  consume_fuel_empty_noop stateEmptyFuel stateDescent 3
    (by norm_num [stateEmptyFuel, stateDescent])
    (by norm_num [stateDescent])

/-- C8: on the last life, a craft-obstacle collision drives lives to 0
and the phase directly to GameOver in the same frame, with no deferred
reset scheduled. -/
theorem last_life_game_over (s : GState) (h : s.lives = 1) :
    (gameLoseLife s).1.lives = 0 ∧
    (gameLoseLife s).1.phase = Phase.gameOver ∧
    (gameLoseLife s).2 = false := by
  unfold gameLoseLife GState.loseLife
  simp only [h]
  norm_num

/-- Witness for C8 at a concrete last-life state. -/
theorem last_life_game_over_witness :
    (gameLoseLife stateLastLife).1.lives = 0 ∧
    (gameLoseLife stateLastLife).1.phase = Phase.gameOver ∧
    (gameLoseLife stateLastLife).2 = false :=
  last_life_game_over stateLastLife (by norm_num [stateLastLife, stateDescent])

/-- C4: `rescueAstronaut` raises the level by one and emits exactly one
`levelUp` notification (hence exactly one obstacle-batch regeneration,
since the game registers one `levelUp` listener running `createMeteors`
once) precisely when the incremented rescue count is divisible by
`ASTRONAUTS_PER_LEVEL` (the incremented count is positive, so this is
exactly the positive-multiple condition); with the count going 4 → 5 the
level goes 1 → 2 and the batch size grows by `METEORS_PER_LEVEL`. -/
theorem level_up_threshold (s t : GState)
    (h4 : t.astronautsRescued = 4) (hl : t.level = 1) :
    ((s.rescueAstronaut).2 = true ↔
      (s.astronautsRescued + 1) % Config.ASTRONAUTS_PER_LEVEL = 0) ∧
    (s.rescueAstronaut).1.astronautsRescued = s.astronautsRescued + 1 ∧
    (s.rescueAstronaut).1.level =
      (if (s.astronautsRescued + 1) % Config.ASTRONAUTS_PER_LEVEL = 0
        then s.level + 1 else s.level) ∧
    (t.rescueAstronaut).2 = true ∧
    (t.rescueAstronaut).1.level = 2 ∧
    meteorBatchSize (t.rescueAstronaut).1.level =
      meteorBatchSize t.level + Config.METEORS_PER_LEVEL := by
  unfold GState.rescueAstronaut
  dsimp only
  refine ⟨?_, ?_, ?_, ?_, ?_, ?_⟩
  · split_ifs with h <;> simp [h]
  · split_ifs with h <;> rfl
  · split_ifs with h <;> rfl
  · simp [h4, Config.ASTRONAUTS_PER_LEVEL]
  · simp [h4, hl, Config.ASTRONAUTS_PER_LEVEL]
  · norm_num [h4, hl, Config.ASTRONAUTS_PER_LEVEL, meteorBatchSize,
      Config.METEOR_COUNT, Config.METEORS_PER_LEVEL]

lemma lander_update_vel (l : Lander) : (l.update).vel = l.vel := by
  unfold Lander.update Lander.clampPosition
  split_ifs <;> rfl

lemma updateDescentPhase_vel_noThrust (i : DescentInput) (dt : ℚ) (l : Lander)
    (s : GState) (h : i.up = false) :
    ((updateDescentPhase i dt l s).1).vel.y =
      max (l.vel.y + Config.GRAVITY) Config.MAX_DESCENT_SPEED := by
  unfold updateDescentPhase Lander.applyGravity Lander.moveHorizontal
    Lander.easeRotation Lander.applyThrust Lander.setThrusterVisible
  dsimp only
  simp only [h, Bool.false_and, Bool.false_eq_true, if_false]
  split_ifs <;> rfl

lemma updateDescentPhase_vel_thrust (i : DescentInput) (dt : ℚ) (l : Lander)
    (s : GState) (h : i.up = true) (hf : 0 < s.fuel) :
    ((updateDescentPhase i dt l s).1).vel.y =
      max (l.vel.y + Config.GRAVITY) Config.MAX_DESCENT_SPEED + Config.THRUST := by
  unfold updateDescentPhase Lander.applyGravity Lander.moveHorizontal
    Lander.easeRotation Lander.applyThrust Lander.setThrusterVisible
  dsimp only
  simp only [h, Bool.true_and, decide_eq_true_eq, gt_iff_lt, hf, if_true]
  split_ifs <;> rfl

lemma descentFrame_noThrust_vy (i : DescentInput) (dt : ℚ) (l : Lander)
    (s : GState) (hi : i.up = false) (hv : l.vel.y ≤ 0) :
    ((descentFrame i dt l s).1).vel.y ≤ 0 := by
  unfold descentFrame
  dsimp only
  rw [lander_update_vel, updateDescentPhase_vel_noThrust i dt l s hi]
  apply max_le
  · have : Config.GRAVITY ≤ 0 := by norm_num [Config.GRAVITY]
    linarith
  · norm_num [Config.MAX_DESCENT_SPEED]

lemma updateDescentPhase_active (i : DescentInput) (dt : ℚ) (l : Lander)
    (s : GState) : ((updateDescentPhase i dt l s).1).active = l.active := by
  unfold updateDescentPhase Lander.applyGravity Lander.moveHorizontal
    Lander.easeRotation Lander.applyThrust Lander.setThrusterVisible
  dsimp only
  split_ifs <;> rfl

lemma lander_update_in_bounds (l : Lander) (h : l.active = true) :
    (l.update).isOutOfBounds = false := by
  unfold Lander.update Lander.clampPosition Lander.isOutOfBounds
  simp only [h, Bool.true_eq_false, if_false, Bool.or_eq_false_iff,
    decide_eq_false_iff_not, not_lt]
  constructor
  · exact le_max_left _ _
  · exact max_le (by norm_num [Config.GAME_WIDTH]) (min_le_left _ _)

/-- Witness for C4 at the four-rescues state. -/
theorem level_up_threshold_witness :
    ((stateDescent.rescueAstronaut).2 = true ↔
      (stateDescent.astronautsRescued + 1) % Config.ASTRONAUTS_PER_LEVEL = 0) ∧
    (stateDescent.rescueAstronaut).1.astronautsRescued =
      stateDescent.astronautsRescued + 1 ∧
    (stateDescent.rescueAstronaut).1.level =
      (if (stateDescent.astronautsRescued + 1) % Config.ASTRONAUTS_PER_LEVEL = 0
        then stateDescent.level + 1 else stateDescent.level) ∧
    (stateFourRescues.rescueAstronaut).2 = true ∧
    (stateFourRescues.rescueAstronaut).1.level = 2 ∧
    meteorBatchSize (stateFourRescues.rescueAstronaut).1.level =
      meteorBatchSize stateFourRescues.level + Config.METEORS_PER_LEVEL :=
  level_up_threshold stateDescent stateFourRescues rfl rfl

/-- C1 counterexample: with vertical velocity 0 (hence ≤ 0) before the
tick, one Descent frame with thrust held and fuel available leaves the
craft with strictly positive vertical velocity — thrust does produce net
ascent, because `applyGravity` only floors the velocity at
`MAX_DESCENT_SPEED` and nothing caps it at 0. -/
theorem descent_thrust_net_ascent_counterexample :
    landerHover.vel.y ≤ 0 ∧
    0 < ((descentFrame inputThrust (2/125) landerHover stateDescent).1).vel.y := by
  constructor
  · norm_num [landerHover]
  · norm_num [descentFrame, updateDescentPhase, landerHover, stateDescent,
      inputThrust, Lander.applyGravity, Lander.applyThrust, Lander.easeRotation,
      Lander.setThrusterVisible, Lander.update, Lander.clampPosition,
      Config.GRAVITY, Config.THRUST, Config.MAX_DESCENT_SPEED, Config.GAME_WIDTH]

/-- C1 amended: during Descent, a frame without thrust preserves
`velocity.y ≤ 0` for any number of consecutive ticks; a frame with
thrust held and fuel available sets `velocity.y` to
`max (vy + GRAVITY) MAX_DESCENT_SPEED + THRUST`, so each such tick adds
`GRAVITY + THRUST = +0.025` net (above the floor) and can drive the
velocity positive — thrust is not limited to slowing descent. -/
theorem descent_thrust_velocity (i j : DescentInput) (dt dt2 : ℚ) (l m : Lander)
    (s u : GState) (n : ℕ) (hi : i.up = false) (hv : l.vel.y ≤ 0)
    (hj : j.up = true) (hu : 0 < u.fuel) :
    ((descentIter i dt n (l, s)).1).vel.y ≤ 0 ∧
    ((descentFrame j dt2 m u).1).vel.y =
      max (m.vel.y + Config.GRAVITY) Config.MAX_DESCENT_SPEED + Config.THRUST := by
  constructor
  · have iter : ∀ (k : ℕ) (p : Lander × GState), p.1.vel.y ≤ 0 →
        ((descentIter i dt k p).1).vel.y ≤ 0 := by
      intro k
      induction k with
      | zero => intro p hp; exact hp
      | succ k ih =>
          intro p hp
          exact ih (descentFrame i dt p.1 p.2) (descentFrame_noThrust_vy i dt p.1 p.2 hi hp)
    exact iter n (l, s) hv
  · unfold descentFrame
    dsimp only
    rw [lander_update_vel, updateDescentPhase_vel_thrust j dt2 m u hj hu]

/-- Witness for the amended C1 at concrete inputs: two no-thrust ticks
from rest keep the velocity non-positive, and a thrust tick obeys the
gravity-floor-plus-thrust formula. -/
theorem descent_thrust_velocity_witness :
    ((descentIter inputNone (2/125) 2 (landerHover, stateDescent)).1).vel.y ≤ 0 ∧
    ((descentFrame inputThrust (2/125) landerHover stateDescent).1).vel.y =
      max (landerHover.vel.y + Config.GRAVITY) Config.MAX_DESCENT_SPEED +
        Config.THRUST :=
  descent_thrust_velocity inputNone inputThrust (2/125) (2/125) landerHover
    landerHover stateDescent stateDescent 2 rfl (by norm_num [landerHover]) rfl
    (by norm_num [stateDescent])

/-- C3 counterexample: a Descent frame moving right from x = 18.9 has
pre-clamp horizontal position 19.2, outside the clamped extent
(|x| > 19), yet the craft-boundary check of that same frame reports no
hit: it observes the post-clamp position, and the clamp has already
pulled the craft back to x = 19. -/
theorem boundary_check_counterexample :
    Config.GAME_WIDTH / 2 - 1 <
      ((updateDescentPhase inputRight (2/125) landerEdge stateDescent).1).pos.x +
        ((updateDescentPhase inputRight (2/125) landerEdge stateDescent).1).vel.x ∧
    checkBoundaryCollision
      ((descentFrame inputRight (2/125) landerEdge stateDescent).1) = false := by
  constructor
  · norm_num [updateDescentPhase, landerEdge, landerHover, stateDescent, inputRight,
      Lander.applyGravity, Lander.moveHorizontal, Lander.easeRotation,
      Lander.applyThrust, Lander.setThrusterVisible,
      Config.GRAVITY, Config.MAX_DESCENT_SPEED, Config.HORIZONTAL_SPEED,
      Config.GAME_WIDTH]
  · norm_num [descentFrame, updateDescentPhase, landerEdge, landerHover,
      stateDescent, inputRight, Lander.applyGravity, Lander.moveHorizontal,
      Lander.easeRotation, Lander.applyThrust, Lander.setThrusterVisible,
      Lander.update, Lander.clampPosition, checkBoundaryCollision,
      Lander.isOutOfBounds, Config.GRAVITY, Config.MAX_DESCENT_SPEED,
      Config.HORIZONTAL_SPEED, Config.GAME_WIDTH]

/-- C3 amended: the craft-boundary check observes the post-clamp
position: `Lander.update` clamps x into `[-(W/2-1), W/2-1]` before
`checkCollisions` runs, and `isOutOfBounds` is strict, so for an active
craft `checkBoundaryCollision` returns `false` after every update and
after every Descent frame — no boundary life-loss event can fire from a
frame in which only the pre-clamp position left the extent. -/
theorem boundary_check_post_clamp (l l2 : Lander) (i : DescentInput) (dt : ℚ)
    (s : GState) (h : l.active = true) (h2 : l2.active = true) :
    checkBoundaryCollision l.update = false ∧
    checkBoundaryCollision ((descentFrame i dt l2 s).1) = false := by
  constructor
  · exact lander_update_in_bounds l h
  · unfold descentFrame
    dsimp only
    exact lander_update_in_bounds _ ((updateDescentPhase_active i dt l2 s).trans h2)

/-- Witness for the amended C3 at a concrete frame. -/
theorem boundary_check_post_clamp_witness :
    checkBoundaryCollision landerEdge.update = false ∧
    checkBoundaryCollision
      ((descentFrame inputRight (2/125) landerEdge stateDescent).1) = false :=
  boundary_check_post_clamp landerEdge landerEdge inputRight (2/125) stateDescent
    rfl rfl

lemma landerMeteor_result_active (lander : Lander) (meteors : List Entity)
    (m : Entity) (h : checkLanderMeteorCollision lander meteors = some m) :
    m.active = true := by
  unfold checkLanderMeteorCollision at h
  split_ifs at h with hl
  have hp := List.find?_some h
  simp only [Bool.and_eq_true] at hp
  exact hp.1

lemma bulletMeteor_mem_active (bullets meteors : List Entity) (p : Entity × Entity)
    (hp : p ∈ checkBulletMeteorCollisions bullets meteors) :
    p.1.active = true ∧ p.2.active = true := by
  unfold checkBulletMeteorCollisions at hp
  rw [List.mem_flatMap] at hp
  obtain ⟨b, hb, hpb⟩ := hp
  by_cases hba : b.active = false
  · rw [if_pos hba] at hpb
    exact absurd hpb (List.not_mem_nil p)
  · rw [if_neg hba] at hpb
    rw [List.mem_filterMap] at hpb
    obtain ⟨mm, hmm, heq⟩ := hpb
    by_cases hma : mm.active = false
    · rw [if_pos hma] at heq
      exact absurd heq (by simp)
    · rw [if_neg hma] at heq
      by_cases hc : b.collidesWith mm = true
      · rw [if_pos hc, Option.some.injEq] at heq
        subst heq
        simp only [Bool.not_eq_false] at hba hma
        exact ⟨hba, hma⟩
      · rw [if_neg hc] at heq
        exact absurd heq (by simp)

/-- C2 counterexample: the positional queries do consult inactive
entities — a deactivated landing pad still appears in the craft-padSet
result, and a deactivated craft still makes the craft-boundary query
report a hit. -/
theorem inactive_entity_query_counterexample :
    padInactive.active = false ∧
    checkLandingPadCollision landerAtGround [padInactive] = some padInactive ∧
    landerInactiveFar.active = false ∧
    checkBoundaryCollision landerInactiveFar = true := by
  refine ⟨rfl, ?_, rfl, ?_⟩
  · have hg : landerAtGround.isAtGroundLevel = true := by
      unfold Lander.isAtGroundLevel landerAtGround landerHover
      norm_num [Config.GAME_HEIGHT]
    unfold checkLandingPadCollision
    rw [if_neg (by simp [hg])]
    rw [List.find?_cons_of_pos]
    unfold LandingPad.isPositionOverPad landerAtGround landerHover padInactive
    norm_num
  · unfold checkBoundaryCollision Lander.isOutOfBounds landerInactiveFar landerHover
    norm_num [Config.GAME_WIDTH]

/-- C2 amended: the pairwise sphere-test queries do exclude inactive
entities — an inactive craft yields no craft-obstacle hit, every entity
appearing in a craft-obstacle or projectile-obstacle result is active,
and hence a deactivated obstacle appears in no subsequent result of
those two queries — but the positional queries (craft-padSet,
craft-ground, craft-station, craft-boundary) never consult the active
flag (see the counterexample). -/
theorem inactive_excluded_sphere_queries (lander li : Lander)
    (bullets meteors : List Entity) (m : Entity) (p : Entity × Entity)
    (hli : li.active = false) :
    (checkLanderMeteorCollision lander meteors = some m → m.active = true) ∧
    (p ∈ checkBulletMeteorCollisions bullets meteors →
      p.1.active = true ∧ p.2.active = true) ∧
    checkLanderMeteorCollision li meteors = none ∧
    (m.active = false → checkLanderMeteorCollision lander meteors ≠ some m) := by
  refine ⟨fun h => landerMeteor_result_active lander meteors m h,
    fun hp => bulletMeteor_mem_active bullets meteors p hp, ?_, ?_⟩
  · unfold checkLanderMeteorCollision
    rw [if_pos hli]
  · intro hm h
    rw [landerMeteor_result_active lander meteors m h] at hm
    exact Bool.true_eq_false.mp hm

/-- Witness for the amended C2: an inactive craft returns no hit against
a concrete obstacle pool. -/
theorem inactive_excluded_sphere_queries_witness :
    checkLanderMeteorCollision landerInactiveFar [entMeteorHit] = none :=
  (inactive_excluded_sphere_queries landerHover landerInactiveFar [entBulletHit]
    [entMeteorHit] entMeteorHit (entBulletHit, entMeteorHit) rfl).2.2.1

lemma astro_update_stuck (lx : ℚ) (a : Astronaut)
    (h : a.active = false ∨ a.state = AState.aboard) : a.update lx = (a, false) := by
  unfold Astronaut.update
  rw [if_pos h]

lemma astro_update_rank (lx : ℚ) (a : Astronaut) :
    a.state.rank ≤ ((a.update lx).1).state.rank := by
  unfold Astronaut.update
  split_ifs with h
  · exact le_refl _
  · cases hs : a.state with
    | running =>
        dsimp only
        split_ifs <;> simp [AState.rank]
    | boarding =>
        dsimp only
        split_ifs <;> simp [AState.rank]
    | aboard =>
        dsimp only
        simp [hs, AState.rank]

lemma astro_update_true (lx : ℚ) (a : Astronaut) :
    (a.update lx).2 = true →
    ((a.update lx).1).state = AState.aboard ∧ ((a.update lx).1).active = false := by
  unfold Astronaut.update
  split_ifs with hg
  · intro h
    exact absurd h (by simp)
  · cases hs : a.state with
    | running =>
        dsimp only
        split_ifs <;> (intro h; exact absurd h (by simp))
    | boarding =>
        dsimp only
        split_ifs with h2
        · intro _
          exact ⟨rfl, rfl⟩
        · intro h
          exact absurd h (by simp)
    | aboard =>
        intro h
        exact absurd h (by simp)

lemma aboardCount_zero (lxs : List ℚ) (a : Astronaut)
    (h : a.active = false ∨ a.state = AState.aboard) : aboardCount a lxs = 0 := by
  induction lxs with
  | nil => rfl
  | cons lx rest ih =>
      simp [aboardCount, astro_update_stuck lx a h, ih]

lemma aboardCount_le_one (lxs : List ℚ) (a : Astronaut) : aboardCount a lxs ≤ 1 := by
  induction lxs generalizing a with
  | nil => simp [aboardCount]
  | cons lx rest ih =>
      simp only [aboardCount]
      by_cases hr : (a.update lx).2 = true
      · have h2 := astro_update_true lx a hr
        have hz := aboardCount_zero rest (a.update lx).1 (Or.inr h2.1)
        simp [hr, hz]
      · have hrf : (a.update lx).2 = false := by
          cases hv : (a.update lx).2
          · rfl
          · exact absurd hv hr
        rw [hrf]
        simp only [Bool.false_eq_true, if_false, Nat.zero_add]
        exact ih (a.update lx).1

/-- C6: the rescue target's state only ever advances along
Approaching → Boarding → Aboard (the rank never decreases); an update
reporting "aboard" leaves the astronaut in the Aboard state and
inactive; an Aboard astronaut is never changed again and always reports
`false`; and over any update sequence "aboard" is reported at most once
— i.e. exactly once per instance, at the Boarding → Aboard transition. -/
theorem astronaut_monotone_aboard_once (a : Astronaut) (lx : ℚ) (lxs : List ℚ) :
    a.state.rank ≤ ((a.update lx).1).state.rank ∧
    ((a.update lx).2 = true →
      ((a.update lx).1).state = AState.aboard ∧ ((a.update lx).1).active = false) ∧
    (a.state = AState.aboard → a.update lx = (a, false)) ∧
    aboardCount a lxs ≤ 1 :=
  ⟨astro_update_rank lx a, fun h => astro_update_true lx a h,
    fun h => astro_update_stuck lx a (Or.inr h), aboardCount_le_one lxs a⟩

/-- Witness for C6: a concrete boarding astronaut one shrink away from
the threshold goes Aboard exactly once. -/
theorem astronaut_monotone_aboard_once_witness :
    ((astroBoarding.update 0).1).state = AState.aboard ∧
    ((astroBoarding.update 0).1).active = false ∧
    aboardCount astroBoarding [0, 0] ≤ 1 := by
  have h := astronaut_monotone_aboard_once astroBoarding 0 [0, 0]
  have ht : (astroBoarding.update 0).2 = true := by
    unfold Astronaut.update astroBoarding
    rw [if_neg (by simp)]
    dsimp only
    rw [if_pos (by norm_num)]
  exact ⟨(h.2.1 ht).1, (h.2.1 ht).2, h.2.2.2⟩

lemma moveStep_flags (m : Meteor) :
    (m.moveStep).isFlagship = m.isFlagship ∧ (m.moveStep).points = m.points ∧
    (m.moveStep).radius = m.radius ∧
    (m.moveStep).willBecomeFlagship = m.willBecomeFlagship ∧
    (m.moveStep).flashTimer = m.flashTimer :=
  ⟨rfl, rfl, rfl, rfl, rfl⟩

lemma bounceStep_flags (m : Meteor) :
    (m.bounceStep).isFlagship = m.isFlagship ∧ (m.bounceStep).points = m.points ∧
    (m.bounceStep).radius = m.radius ∧
    (m.bounceStep).willBecomeFlagship = m.willBecomeFlagship ∧
    (m.bounceStep).flashTimer = m.flashTimer := by
  unfold Meteor.bounceStep
  split_ifs <;> exact ⟨rfl, rfl, rfl, rfl, rfl⟩

lemma wrapStep_flags (m : Meteor) :
    (m.wrapStep).isFlagship = m.isFlagship ∧ (m.wrapStep).points = m.points ∧
    (m.wrapStep).radius = m.radius ∧
    (m.wrapStep).willBecomeFlagship = m.willBecomeFlagship ∧
    (m.wrapStep).flashTimer = m.flashTimer := by
  unfold Meteor.wrapStep
  split_ifs <;> exact ⟨rfl, rfl, rfl, rfl, rfl⟩

lemma spinStep_flags (m : Meteor) :
    (m.spinStep).isFlagship = m.isFlagship ∧ (m.spinStep).points = m.points ∧
    (m.spinStep).radius = m.radius := by
  unfold Meteor.spinStep
  split_ifs <;> exact ⟨rfl, rfl, rfl⟩

lemma flagshipStep_of_flagship (hs : Bool) (m : Meteor) (h : m.isFlagship = true) :
    m.flagshipStep hs = m := by
  unfold Meteor.flagshipStep
  rw [if_neg (by simp [h])]

lemma update_preserves_flagship (hs : Bool) (m : Meteor) (h : m.isFlagship = true) :
    (Meteor.update hs m).isFlagship = true ∧
    (Meteor.update hs m).points = m.points ∧
    (Meteor.update hs m).radius = m.radius := by
  unfold Meteor.update
  split_ifs with ha
  · exact ⟨h, rfl, rfl⟩
  · have hm := moveStep_flags m
    have hb := bounceStep_flags m.moveStep
    have hw := wrapStep_flags m.moveStep.bounceStep
    have hff : (m.moveStep.bounceStep.wrapStep).isFlagship = true := by
      rw [hw.1, hb.1, hm.1, h]
    rw [flagshipStep_of_flagship hs _ hff]
    have hsf := spinStep_flags m.moveStep.bounceStep.wrapStep
    refine ⟨by rw [hsf.1, hff], ?_, ?_⟩
    · rw [hsf.2.1, hw.2.1, hb.2.1, hm.2.1]
    · rw [hsf.2.2, hw.2.2.1, hb.2.2.1, hm.2.2.1]

lemma runMeteor_flagship (scenes : List Bool) (m : Meteor) (h : m.isFlagship = true) :
    (runMeteor m scenes).isFlagship = true ∧
    (runMeteor m scenes).points = m.points ∧
    (runMeteor m scenes).radius = m.radius := by
  induction scenes generalizing m with
  | nil => exact ⟨h, rfl, rfl⟩
  | cons hs rest ih =>
      have hu := update_preserves_flagship hs m h
      have hr := ih (Meteor.update hs m) hu.1
      exact ⟨hr.1, hr.2.1.trans hu.2.1, hr.2.2.trans hu.2.2⟩

lemma update_triggers_transform (m : Meteor) (ha : m.active = true)
    (hw : m.willBecomeFlagship = true) (hn : m.isFlagship = false)
    (ht : Config.FLAGSHIP_FLASH_DURATION < m.flashTimer + 1/20) :
    (Meteor.update true m).isFlagship = true := by
  unfold Meteor.update
  rw [if_neg (by simp [ha])]
  have hm := moveStep_flags m
  have hb := bounceStep_flags m.moveStep
  have hwr := wrapStep_flags m.moveStep.bounceStep
  have hww : (m.moveStep.bounceStep.wrapStep).willBecomeFlagship = true := by
    rw [hwr.2.2.2.1, hb.2.2.2.1, hm.2.2.2.1, hw]
  have hwn : (m.moveStep.bounceStep.wrapStep).isFlagship = false := by
    rw [hwr.1, hb.1, hm.1, hn]
  have hwt : (m.moveStep.bounceStep.wrapStep).flashTimer = m.flashTimer := by
    rw [hwr.2.2.2.2, hb.2.2.2.2, hm.2.2.2.2]
  unfold Meteor.flagshipStep
  rw [if_pos (by simp [hww, hwn])]
  dsimp only
  rw [hwt, if_pos ht]
  have hsf := spinStep_flags (Meteor.transformToFlagship
    { m.moveStep.bounceStep.wrapStep with flashTimer := m.flashTimer + 1/20 })
  rw [hsf.1]
  rfl

/-- C7 counterexample: a meteor whose initial random scale was 1.4 (a
value in the reachable range `[0.5, 1.5)`) has pre-transform radius 1.4;
the transform sets the radius to the fixed flagship value 1.2, which is
strictly smaller — the post-transform collision radius is not strictly
larger for every possible pre-transform meteor. -/
theorem flagship_radius_counterexample :
    meteorScaleValid meteorBig.radius ∧
    meteorBig.isFlagship = false ∧
    meteorBig.willBecomeFlagship = true ∧
    (meteorBig.transformToFlagship).radius < meteorBig.radius := by
  refine ⟨⟨by norm_num [meteorBig], by norm_num [meteorBig]⟩, rfl, rfl, ?_⟩
  norm_num [Meteor.transformToFlagship, meteorBig]

/-- C7 amended: once an eligible, untransformed, active obstacle's flash
timer exceeds `FLAGSHIP_FLASH_DURATION`, the update transforms it in
place; after the transform the point value equals the flagship value,
the horizontal velocity magnitude is exactly doubled, the collision
radius is the fixed value 1.2 — strictly larger than the pre-transform
radius only when that radius (the initial scale, drawn from `[0.5, 1.5)`)
is below 1.2 — and the elite flag is true and never reverts, with point
value and radius unchanged, over any sequence of later updates (the
transform guard requires `isFlagship = false`, so it runs exactly
once). -/
theorem flagship_transform_effects (m mt mf : Meteor) (scenes : List Bool)
    (hta : mt.active = true) (htw : mt.willBecomeFlagship = true)
    (htn : mt.isFlagship = false)
    (htt : Config.FLAGSHIP_FLASH_DURATION < mt.flashTimer + 1/20)
    (hf : mf.isFlagship = true) :
    (Meteor.update true mt).isFlagship = true ∧
    (m.transformToFlagship).points = Config.SCORE_FLAGSHIP ∧
    |(m.transformToFlagship).vel.x| = 2 * |m.vel.x| ∧
    (m.transformToFlagship).radius = 6/5 ∧
    (m.radius < 6/5 → m.radius < (m.transformToFlagship).radius) ∧
    (m.transformToFlagship).isFlagship = true ∧
    (runMeteor mf scenes).isFlagship = true ∧
    (runMeteor mf scenes).points = mf.points ∧
    (runMeteor mf scenes).radius = mf.radius := by
  have hrm := runMeteor_flagship scenes mf hf
  refine ⟨update_triggers_transform mt hta htw htn htt, rfl, ?_, rfl, ?_, rfl,
    hrm.1, hrm.2.1, hrm.2.2⟩
  · show |m.vel.x * 2| = 2 * |m.vel.x|
    rw [abs_mul, abs_two, mul_comm]
  · intro h
    show m.radius < (6 : ℚ)/5
    exact h

/-- Witness for the amended C7 at concrete meteors: one on the threshold
tick, one for the raw transform, one already elite run for two ticks. -/
theorem flagship_transform_effects_witness :
    (Meteor.update true meteorReady).isFlagship = true ∧
    (meteorBig.transformToFlagship).points = Config.SCORE_FLAGSHIP ∧
    |(meteorBig.transformToFlagship).vel.x| = 2 * |meteorBig.vel.x| ∧
    (meteorBig.transformToFlagship).radius = 6/5 ∧
    (meteorBig.radius < 6/5 → meteorBig.radius < (meteorBig.transformToFlagship).radius) ∧
    (meteorBig.transformToFlagship).isFlagship = true ∧
    (runMeteor meteorElite [true, false]).isFlagship = true ∧
    (runMeteor meteorElite [true, false]).points = meteorElite.points ∧
    (runMeteor meteorElite [true, false]).radius = meteorElite.radius :=
  flagship_transform_effects meteorBig meteorReady meteorElite [true, false]
    rfl rfl rfl
    (by norm_num [meteorReady, meteorBig, Config.FLAGSHIP_FLASH_DURATION]) rfl

end MeteorMission
